import Mathlib

/-!
Shallow embedding of the self-healing Selenium interception layer
(`selenium_interceptor.py`), the element snapshot container
(`Property.py` / `healing.py`) and the signed serializer
(`pickleWebElement.py`), with theorems checking the specification's
claims about them.
-/

set_option autoImplicit false
set_option maxRecDepth 8192

namespace Healing

/-- Exception taxonomy as the interceptor branches on it:
`noSuch` models `NoSuchElementException`, `stale` models
`StaleElementReferenceException`, and `other` models every other Python
exception class (fatal driver errors, errors raised inside the healer,
`RecursionError`, ...). -/
inductive Exc where
  | noSuch (msg : String)
  | stale (msg : String)
  | other (msg : String)
  deriving DecidableEq, Repr

/-- The classes caught by `except (NoSuchElementException,
StaleElementReferenceException)`. -/
def Exc.healable : Exc → Bool
  | Exc.noSuch _ => true
  | Exc.stale _ => true
  | Exc.other _ => false

/-- `str(exception)`. -/
def Exc.msg : Exc → String
  | Exc.noSuch m => m
  | Exc.stale m => m
  | Exc.other m => m

/-- A locator, the `(by, value)` pair passed to the find methods. -/
structure Locator where
  ty : String
  value : String
  deriving DecidableEq, Repr

/-- `By.XPATH`. -/
def byXpath : String := "xpath"

/-- The healer's result object: `healing_result.success` and
`healing_result.new_xpath`. -/
structure HealingResult where
  success : Bool
  new_xpath : String
  deriving DecidableEq, Repr

/-- Instrumentation counters for one invocation: calls to the underlying
(unpatched) find, calls to `healer.heal`, re-resolutions attempted with a
candidate locator, calls to the underlying action method, and action
replays. -/
structure Stats where
  finds : Nat
  heals : Nat
  reResolves : Nat
  actions : Nat
  replays : Nat
  deriving DecidableEq, Repr

def Stats.zero : Stats := ⟨0, 0, 0, 0, 0⟩

instance : Add Stats :=
  ⟨fun a b => ⟨a.finds + b.finds, a.heals + b.heals,
    a.reResolves + b.reResolves, a.actions + b.actions,
    a.replays + b.replays⟩⟩

/-- The external world of one interceptor invocation: the underlying
driver calls (which may raise), the monitor's `auto_heal` flag and
element registry (`get_element_info`), and the injected healer.  Element
handles are modelled as `Nat`.  `action` is the original (unpatched)
element method with its arguments already fixed, applied to a handle;
`heal loc pageSource reason` models `healer.heal`, which may raise
(`Except.error`), return `None` (`Except.ok none`) or return a result
object. -/
structure Env where
  autoHeal : Bool
  findOne : Locator → Except Exc Nat
  findMany : Locator → Except Exc (List Nat)
  pageSource : Except Exc String
  heal : Locator → String → String → Except Exc (Option HealingResult)
  elementInfo : Nat → Option Locator
  action : Nat → Except Exc String

/-- `SeleniumInterceptor._find_element_handler`, with
`_attempt_healing` inlined.  The re-resolution
`driver.find_element(By.XPATH, healing_result.new_xpath)` goes through
the *patched* `find_element`, i.e. re-enters this very handler; the
`Nat` fuel models Python's bounded call stack (exhaustion raises
`RecursionError`).  The second component counts the external calls made
during the invocation. -/
def find_element_handler : Nat → Env → Locator → Except Exc Nat × Stats
  | 0, _, _ => (Except.error (Exc.other "RecursionError"), Stats.zero)
  | Nat.succ n, env, loc =>
    match env.findOne loc with
    | Except.ok h => (Except.ok h, ⟨1, 0, 0, 0, 0⟩)
    | Except.error e =>
      if e.healable && env.autoHeal then
        -- `_attempt_healing(by, value, e)`
        match env.pageSource with
        | Except.error pe => (Except.error pe, ⟨1, 0, 0, 0, 0⟩)
        | Except.ok ps =>
          match env.heal loc ps e.msg with
          | Except.error he => (Except.error he, ⟨1, 1, 0, 0, 0⟩)
          | Except.ok none => (Except.error e, ⟨1, 1, 0, 0, 0⟩)
          | Except.ok (some hr) =>
            if hr.success then
              -- re-resolve via the patched `find_element`; any failure
              -- is caught by `except Exception` and the original error
              -- is re-raised
              match find_element_handler n env ⟨byXpath, hr.new_xpath⟩ with
              | (Except.ok h2, s) => (Except.ok h2, ⟨1, 1, 1, 0, 0⟩ + s)
              | (Except.error _, s) => (Except.error e, ⟨1, 1, 1, 0, 0⟩ + s)
            else (Except.error e, ⟨1, 1, 0, 0, 0⟩)
      else (Except.error e, ⟨1, 0, 0, 0, 0⟩)

/-- `SeleniumInterceptor._find_elements_handler`: a healable failure
degrades to the empty list (after a monitor notification); the healer is
never consulted, other exceptions propagate. -/
def find_elements_handler (env : Env) (loc : Locator) :
    Except Exc (List Nat) × Stats :=
  match env.findMany loc with
  | Except.ok hs => (Except.ok hs, ⟨1, 0, 0, 0, 0⟩)
  | Except.error e =>
    if e.healable then (Except.ok [], ⟨1, 0, 0, 0, 0⟩)
    else (Except.error e, ⟨1, 0, 0, 0, 0⟩)

/-- The wrapper built by `SeleniumInterceptor._create_action_wrapper`,
with `_attempt_element_recovery` inlined.  Only
`StaleElementReferenceException` is caught; recovery consults the
registry (`monitor.get_element_info`), calls the healer once, re-resolves
through the *patched* `find_element`, and on success replays the action —
through the *patched* method, since the action methods are patched on the
`WebElement` class itself. -/
def action_wrapper : Nat → Env → Nat → Except Exc String × Stats
  | 0, _, _ => (Except.error (Exc.other "RecursionError"), Stats.zero)
  | Nat.succ n, env, h =>
    match env.action h with
    | Except.ok r => (Except.ok r, ⟨0, 0, 0, 1, 0⟩)
    | Except.error e =>
      match e with
      | Exc.stale m =>
        if env.autoHeal then
          -- `_attempt_element_recovery(element, method, args, kwargs, e)`
          match env.elementInfo h with
          | none => (Except.error (Exc.stale m), ⟨0, 0, 0, 1, 0⟩)
          | some loc =>
            match env.pageSource with
            | Except.error pe => (Except.error pe, ⟨0, 0, 0, 1, 0⟩)
            | Except.ok ps =>
              match env.heal loc ps ("Stale element: " ++ m) with
              | Except.error he => (Except.error he, ⟨0, 1, 0, 1, 0⟩)
              | Except.ok none => (Except.error (Exc.stale m), ⟨0, 1, 0, 1, 0⟩)
              | Except.ok (some hr) =>
                if hr.success then
                  match find_element_handler n env ⟨byXpath, hr.new_xpath⟩ with
                  | (Except.ok h2, s) =>
                    -- replay: `getattr(healed_element, method_name)(*args)`
                    match action_wrapper n env h2 with
                    | (res, s2) => (res, ⟨0, 1, 1, 1, 1⟩ + s + s2)
                  | (Except.error _, s) =>
                    (Except.error (Exc.stale m), ⟨0, 1, 1, 1, 0⟩ + s)
                else (Except.error (Exc.stale m), ⟨0, 1, 0, 1, 0⟩)
        else (Except.error (Exc.stale m), ⟨0, 0, 0, 1, 0⟩)
      | _ => (Except.error e, ⟨0, 0, 0, 1, 0⟩)

/-- The element snapshot container `WebElementData` (`Property.py`).
Python is dynamically typed and `element.get_attribute` returns `None`
for an absent attribute, so the string-valued fields are modelled as
`Option String` (`none` = Python `None`); `attributes` is the dict,
modelled as an association list. -/
structure WebElementData where
  tag : Option String
  element_id : Option String
  classes : List String
  text : Option String
  href : Option String
  src : Option String
  name : Option String
  value : Option String
  xpath : Option String
  attributes : List (String × String)
  deriving DecidableEq, Repr

/-- `WebElementData.__init__`: stores the arguments as given, except
`self.classes = classes or []` and `self.attributes = attributes or {}`
(Python `or` maps both `None` and an empty collection to the fresh empty
collection). -/
def initWebElementData (tag element_id : Option String)
    (classes : Option (List String))
    (text href src name value xpath : Option String)
    (attributes : Option (List (String × String))) : WebElementData :=
  ⟨tag, element_id,
   (match classes with | some l => l | none => []),
   text, href, src, name, value, xpath,
   (match attributes with | some l => l | none => [])⟩

/-- Replace the `attributes` dict of a snapshot (the two mutations of
`instance.attributes` in `from_selenium_element`). -/
def setAttributes (d : WebElementData) (a : List (String × String)) :
    WebElementData :=
  ⟨d.tag, d.element_id, d.classes, d.text, d.href, d.src, d.name, d.value,
   d.xpath, a⟩

/-- `WebElementData()` with every argument left to its default. -/
def webElementDataDefault : WebElementData :=
  initWebElementData (some "") (some "") none (some "") (some "") (some "")
    (some "") (some "") (some "") none

/-- A live Selenium `WebElement` as `from_selenium_element` consumes it:
every read goes over the wire and may raise.  `xpathScript` is the
JavaScript executed by `_get_absolute_xpath` (its value may be null),
`attrsScript` the one collecting all HTML attributes. -/
structure Elem where
  tagName : Except Exc String
  getAttribute : String → Except Exc (Option String)
  text : Except Exc String
  xpathScript : Except Exc (Option String)
  attrsScript : Except Exc (List (String × String))

/-- `WebElementData._get_absolute_xpath`: the whole body is inside
`try: ... except Exception: return ""`, and a falsy script result
(null or empty) also becomes `""`. -/
def get_absolute_xpath (el : Elem) : String :=
  match el.xpathScript with
  | Except.ok (some s) => if s = "" then "" else s
  | Except.ok none => ""
  | Except.error _ => ""

/-- `classes.split() if classes else []`. -/
def pySplit : Option String → List String
  | some s =>
    if s = "" then [] else (s.splitOn " ").filter (fun t => t != "")
  | none => []

/-- Truthiness of the `custom_attributes` argument. -/
def listTruthy : Option (List String) → Bool
  | some (_ :: _) => true
  | _ => false

/-- Python dict assignment `m[k] = v`. -/
def dictSet (m : List (String × String)) (k v : String) :
    List (String × String) :=
  if m.any (fun p => p.1 == k) then
    m.map (fun p => if p.1 == k then (k, v) else p)
  else m ++ [(k, v)]

/-- The `for attr in custom_attributes` loop of `from_selenium_element`:
each read may raise; a falsy value (`None` or `""`) is skipped. -/
def addCustomAttrs (el : Elem) :
    List String → List (String × String) → Except Exc (List (String × String))
  | [], acc => pure acc
  | a :: rest, acc => do
    let v ← el.getAttribute a
    match v with
    | some s =>
      if s = "" then addCustomAttrs el rest acc
      else addCustomAttrs el rest (dictSet acc a s)
    | none => addCustomAttrs el rest acc

/-- `WebElementData.from_selenium_element` (`Property.py`), reads in
source order: the `class` attribute, the xpath script (guarded, total),
then the constructor arguments `tag_name`, `id`, `text`, `href`, `src`,
`name`, `value`, and finally the attributes dict.  Apart from the xpath
computation, no read is guarded: a raising read propagates. -/
def from_selenium_element (el : Elem) (include_attributes : Bool)
    (custom_attributes : Option (List String)) : Except Exc WebElementData := do
  let classes ← el.getAttribute "class"
  let xpath := get_absolute_xpath el
  let tag ← el.tagName
  let eid ← el.getAttribute "id"
  let txt ← el.text
  let hrefv ← el.getAttribute "href"
  let srcv ← el.getAttribute "src"
  let namev ← el.getAttribute "name"
  let valuev ← el.getAttribute "value"
  let inst := initWebElementData (some tag) eid (some (pySplit classes))
    (some txt) hrefv srcv namev valuev (some xpath) none
  if include_attributes || listTruthy custom_attributes then
    match custom_attributes with
    | some (a :: rest) => do
      let attrs ← addCustomAttrs el (a :: rest) inst.attributes
      pure (setAttributes inst attrs)
    | _ => do
      let allAttrs ← el.attrsScript
      pure (setAttributes inst allAttrs)
  else
    pure inst

/-- Python `x or default` for an optional string `x`: `None` and `""`
are falsy. -/
def pyOrStr (v : Option String) (default : Option String) : Option String :=
  match v with
  | none => default
  | some s => if s = "" then default else some s

/-- `WebElementData.get_attribute`: the seven direct attributes go
through the truthiness check `direct_attributes[name] or default`;
anything else is `self.attributes.get(name, default)`. -/
def WebElementData.get_attribute (d : WebElementData) (nm : String)
    (default : Option String) : Option String :=
  if nm = "id" then pyOrStr d.element_id default
  else if nm = "class" then
    pyOrStr (some (String.intercalate " " d.classes)) default
  else if nm = "href" then pyOrStr d.href default
  else if nm = "src" then pyOrStr d.src default
  else if nm = "name" then pyOrStr d.name default
  else if nm = "value" then pyOrStr d.value default
  else if nm = "text" then pyOrStr d.text default
  else
    match d.attributes.lookup nm with
    | some v => some v
    | none => default

/-- The error surface of `SecurePickle.loads` (`pickleWebElement.py`):
the explicit `SecurityError` raised on signature mismatch, or a failure
of `pickle.loads` itself. -/
inductive SPError where
  | securityError (msg : String)
  | pickleError (msg : String)
  deriving DecidableEq, Repr

/-- `SecurePickle`, parametric in the digest (`hmac.new(key, data,
digestmod).digest()`) and in the pickle codec, exactly as the class is
parametric in `digestmod` and defers to the `pickle` module.
`signature_size` is `digestmod().digest_size`. -/
structure SecurePickle (α : Type) where
  secret_key : List Nat
  digest : List Nat → List Nat → List Nat
  signature_size : Nat
  pickleDumps : α → List Nat
  pickleLoads : List Nat → Except SPError α

/-- `SecurePickle.dumps`: `signature + pickled_data`. -/
def SecurePickle.dumps {α : Type} (sp : SecurePickle α) (obj : α) :
    List Nat :=
  sp.digest sp.secret_key (sp.pickleDumps obj) ++ sp.pickleDumps obj

/-- `SecurePickle.loads`: split off the leading `signature_size` bytes,
recompute the HMAC of the rest, compare (`hmac.compare_digest` is plain
equality, in constant time), raise `SecurityError` on mismatch, else
unpickle. -/
def SecurePickle.loads {α : Type} (sp : SecurePickle α)
    (secure_data : List Nat) : Except SPError α :=
  let handheld_signature := secure_data.take sp.signature_size
  let pickled_data := secure_data.drop sp.signature_size
  let expected_signature := sp.digest sp.secret_key pickled_data
  if expected_signature = handheld_signature then sp.pickleLoads pickled_data
  else Except.error (SPError.securityError "signature mismatch")

/-! ### Concrete test environments -/

/-- The locator `(By.ID, "submit")`. -/
def locSubmit : Locator := ⟨"id", "submit"⟩

/-- Environment of the forced-failure test: the underlying find always
raises `NoSuchElementException`, the healer always answers with a
successful-looking candidate that also fails to resolve. -/
def envLoop : Env :=
  ⟨true,
   fun _ => Except.error (Exc.noSuch "no such element"),
   fun _ => Except.ok [],
   Except.ok "<html/>",
   fun _ _ _ => Except.ok (some ⟨true, "//candidate"⟩),
   fun _ => none,
   fun _ => Except.error (Exc.stale "stale")⟩

/-- Environment where the healer itself raises. -/
def envHealerCrash : Env :=
  ⟨true,
   fun _ => Except.error (Exc.noSuch "nf"),
   fun _ => Except.error (Exc.noSuch "nf"),
   Except.ok "<html/>",
   fun _ _ _ => Except.error (Exc.other "healer crashed"),
   fun _ => none,
   fun _ => Except.ok "ok"⟩

/-- Environment where the healer declines (`heal` returns `None`). -/
def envDecline : Env :=
  ⟨true,
   fun _ => Except.error (Exc.noSuch "nf"),
   fun _ => Except.error (Exc.stale "stale list"),
   Except.ok "<html/>",
   fun _ _ _ => Except.ok none,
   fun _ => none,
   fun _ => Except.ok "ok"⟩

/-- Environment raising a fatal (non-healable) driver error
everywhere. -/
def envFatal : Env :=
  ⟨true,
   fun _ => Except.error (Exc.other "invalid selector"),
   fun _ => Except.error (Exc.other "invalid selector"),
   Except.ok "<html/>",
   fun _ _ _ => Except.ok (some ⟨true, "//candidate"⟩),
   fun _ => some locSubmit,
   fun _ => Except.error (Exc.other "invalid selector")⟩

/-- Environment of the successful stale-action recovery: handle `5` is
registered and stale, the healer proposes `//new`, which resolves to
handle `9`, on which the action succeeds. -/
def envRecover : Env :=
  ⟨true,
   fun l => if l.value = "//new" then Except.ok 9
            else Except.error (Exc.noSuch "nf"),
   fun _ => Except.ok [],
   Except.ok "<page/>",
   fun _ _ _ => Except.ok (some ⟨true, "//new"⟩),
   fun h => if h = 5 then some locSubmit else none,
   fun h => if h = 9 then Except.ok "clicked"
            else Except.error (Exc.stale "gone")⟩

/-! ### Claims about the interception layer -/

/-- C1: the specification demands at most one `heal` call and one
re-resolution per invocation.  The code re-resolves through the
*patched* `find_element`, so a healer that always returns a
still-failing candidate drives one `heal` call per recursion level:
with a call-stack budget of 3 a single `find_element` invocation
performs 3 `heal` calls and 3 re-resolutions before the original
`NoSuchElementException` surfaces. -/
theorem c1_nested_healing_recursion :
    (find_element_handler 3 envLoop locSubmit).2.heals = 3
    ∧ (find_element_handler 3 envLoop locSubmit).2.reResolves = 3
    ∧ (find_element_handler 3 envLoop locSubmit).1
        = Except.error (Exc.noSuch "no such element") :=
  ⟨rfl, rfl, rfl⟩

/-- C2 (counterexample): only the re-resolution step of
`_attempt_healing` is guarded by `try/except`; an exception raised by
`healer.heal` itself propagates, so the caller observes the
healing-internal error instead of the original
`NoSuchElementException`. -/
theorem c2_heal_exception_reaches_caller :
    envHealerCrash.findOne locSubmit = Except.error (Exc.noSuch "nf")
    ∧ (find_element_handler 2 envHealerCrash locSubmit).1
        = Except.error (Exc.other "healer crashed") :=
  ⟨rfl, rfl⟩

/-- C2 (amended): when the healer returns a value — it declines
(`None`), reports no success, or proposes a candidate whose
re-resolution fails — the single-element lookup re-raises exactly the
original failure. -/
theorem c2_original_error_restored (env : Env) (loc : Locator) (n : Nat)
    (e : Exc) (ps : String)
    (hf : env.findOne loc = Except.error e)
    (hh : e.healable = true)
    (ha : env.autoHeal = true)
    (hps : env.pageSource = Except.ok ps)
    (hheal : env.heal loc ps e.msg = Except.ok none
      ∨ (∃ hr : HealingResult,
          env.heal loc ps e.msg = Except.ok (some hr) ∧ hr.success = false)
      ∨ (∃ (hr : HealingResult) (e2 : Exc),
          env.heal loc ps e.msg = Except.ok (some hr) ∧ hr.success = true
          ∧ (find_element_handler n env ⟨byXpath, hr.new_xpath⟩).1
              = Except.error e2)) :
    (find_element_handler (n + 1) env loc).1 = Except.error e := by
  rcases hheal with hd | ⟨hr, hheq, hs⟩ | ⟨hr, e2, hheq, hs, hre⟩
  · simp [find_element_handler, hf, hh, ha, hps, hd]
  · simp [find_element_handler, hf, hh, ha, hps, hheq, hs]
  · rcases hres : find_element_handler n env ⟨byXpath, hr.new_xpath⟩ with ⟨r, st⟩
    rw [hres] at hre
    simp only at hre
    subst hre
    simp [find_element_handler, hf, hh, ha, hps, hheq, hs, hres]

/-- Witness for `c2_original_error_restored` at a declining healer. -/
theorem c2_original_error_restored_witness :
    (find_element_handler 1 envDecline locSubmit).1
      = Except.error (Exc.noSuch "nf") :=
  c2_original_error_restored envDecline locSubmit 0 (Exc.noSuch "nf")
    "<html/>" rfl rfl rfl rfl (Or.inl rfl)

/-- C3: a multi-element lookup never consults the healer — in every
environment its heal counter is zero — a zero-result query returns the
empty list, and a not-found or stale failure degrades to the empty
list. -/
theorem c3_find_elements_never_heal (env : Env) (loc : Locator) :
    (find_elements_handler env loc).2.heals = 0
    ∧ (env.findMany loc = Except.ok [] →
        (find_elements_handler env loc).1 = Except.ok [])
    ∧ ∀ e : Exc, e.healable = true → env.findMany loc = Except.error e →
        (find_elements_handler env loc).1 = Except.ok [] := by
  refine ⟨?_, ?_, ?_⟩
  · rcases h : env.findMany loc with e | hs
    · rcases e with m | m | m <;> simp [find_elements_handler, h, Exc.healable]
    · simp [find_elements_handler, h]
  · intro h
    simp [find_elements_handler, h]
  · intro e he h
    simp [find_elements_handler, h, he]

/-- Witness for `c3_find_elements_never_heal` on a stale plural
lookup. -/
theorem c3_find_elements_never_heal_witness :
    (find_elements_handler envDecline locSubmit).1 = Except.ok [] :=
  (c3_find_elements_never_heal envDecline locSubmit).2.2
    (Exc.stale "stale list") rfl rfl

/-- C4: a failure class other than not-found / stale-reference is
propagated unchanged with no healing attempt and no re-resolution, on
the single-element lookup path and on the action path (where even a
`NoSuchElementException` is not caught). -/
theorem c4_fatal_never_healed (env : Env) (loc : Locator) (h n : Nat)
    (m : String) :
    (env.findOne loc = Except.error (Exc.other m) →
      find_element_handler (n + 1) env loc
        = (Except.error (Exc.other m), ⟨1, 0, 0, 0, 0⟩))
    ∧ (env.action h = Except.error (Exc.other m) →
      action_wrapper (n + 1) env h
        = (Except.error (Exc.other m), ⟨0, 0, 0, 1, 0⟩))
    ∧ (env.action h = Except.error (Exc.noSuch m) →
      action_wrapper (n + 1) env h
        = (Except.error (Exc.noSuch m), ⟨0, 0, 0, 1, 0⟩)) := by
  refine ⟨?_, ?_, ?_⟩
  · intro hf
    simp [find_element_handler, hf, Exc.healable]
  · intro ha
    simp [action_wrapper, ha]
  · intro ha
    simp [action_wrapper, ha]

/-- Witness for `c4_fatal_never_healed` on a fatal driver error. -/
theorem c4_fatal_never_healed_witness :
    find_element_handler 1 envFatal locSubmit
      = (Except.error (Exc.other "invalid selector"), ⟨1, 0, 0, 0, 0⟩)
    ∧ action_wrapper 1 envFatal 5
      = (Except.error (Exc.other "invalid selector"), ⟨0, 0, 0, 1, 0⟩) :=
  ⟨(c4_fatal_never_healed envFatal locSubmit 5 0 "invalid selector").1 rfl,
   (c4_fatal_never_healed envFatal locSubmit 5 0 "invalid selector").2.1 rfl⟩

/-- C7: a stale action on a registered handle: if the healer proposes a
successful candidate and re-resolution yields a new handle, the wrapper
returns the result of replaying the (wrapped, hence same method, same
arguments) action on that new handle; if the healer declines, reports no
success, or the re-resolution fails, the original stale-reference error
is re-raised. -/
theorem c7_stale_action_replayed (env : Env) (h h2 n : Nat)
    (loc : Locator) (m ps : String) (hr : HealingResult) (s : Stats)
    (e2 : Exc)
    (hact : env.action h = Except.error (Exc.stale m))
    (hauto : env.autoHeal = true)
    (hreg : env.elementInfo h = some loc)
    (hps : env.pageSource = Except.ok ps) :
    (env.heal loc ps ("Stale element: " ++ m) = Except.ok (some hr) →
      hr.success = true →
      find_element_handler n env ⟨byXpath, hr.new_xpath⟩ = (Except.ok h2, s) →
      (action_wrapper (n + 1) env h).1 = (action_wrapper n env h2).1)
    ∧ (env.heal loc ps ("Stale element: " ++ m) = Except.ok none →
      (action_wrapper (n + 1) env h).1 = Except.error (Exc.stale m))
    ∧ (env.heal loc ps ("Stale element: " ++ m) = Except.ok (some hr) →
      hr.success = false →
      (action_wrapper (n + 1) env h).1 = Except.error (Exc.stale m))
    ∧ (env.heal loc ps ("Stale element: " ++ m) = Except.ok (some hr) →
      hr.success = true →
      (find_element_handler n env ⟨byXpath, hr.new_xpath⟩).1
        = Except.error e2 →
      (action_wrapper (n + 1) env h).1 = Except.error (Exc.stale m)) := by
  refine ⟨?_, ?_, ?_, ?_⟩
  · intro hheal hsucc hres
    rcases hrep : action_wrapper n env h2 with ⟨r2, s2⟩
    simp [action_wrapper, hact, hauto, hreg, hps, hheal, hsucc, hres, hrep]
  · intro hheal
    simp [action_wrapper, hact, hauto, hreg, hps, hheal]
  · intro hheal hsucc
    simp [action_wrapper, hact, hauto, hreg, hps, hheal, hsucc]
  · intro hheal hsucc hres
    rcases hfe : find_element_handler n env ⟨byXpath, hr.new_xpath⟩ with ⟨r, st⟩
    rw [hfe] at hres
    simp only at hres
    subst hres
    simp [action_wrapper, hact, hauto, hreg, hps, hheal, hsucc, hfe]

/-- Witness for `c7_stale_action_replayed` at the successful recovery
environment (handle 5 stale, healed to handle 9). -/
theorem c7_stale_action_replayed_witness :
    (action_wrapper 2 envRecover 5).1 = (action_wrapper 1 envRecover 9).1
    ∧ (action_wrapper 2 envRecover 5).1 = Except.ok "clicked" :=
  ⟨(c7_stale_action_replayed envRecover 5 9 1 locSubmit "gone" "<page/>"
      ⟨true, "//new"⟩ ⟨1, 0, 0, 0, 0⟩ (Exc.other "unused")
      rfl rfl rfl rfl).1 rfl rfl rfl,
   by
    rw [(c7_stale_action_replayed envRecover 5 9 1 locSubmit "gone" "<page/>"
      ⟨true, "//new"⟩ ⟨1, 0, 0, 0, 0⟩ (Exc.other "unused")
      rfl rfl rfl rfl).1 rfl rfl rfl]
    rfl⟩

/-- C8: a stale action on a handle without a registry entry re-raises
the original error unchanged — no heal call, no re-resolution, no
replay — whatever the `auto_heal` setting. -/
theorem c8_no_registry_entry_reraises (env : Env) (h n : Nat) (m : String)
    (hact : env.action h = Except.error (Exc.stale m))
    (hreg : env.elementInfo h = none) :
    action_wrapper (n + 1) env h
      = (Except.error (Exc.stale m), ⟨0, 0, 0, 1, 0⟩) := by
  rcases ha : env.autoHeal with _ | _ <;>
    simp [action_wrapper, hact, hreg, ha]

/-- Witness for `c8_no_registry_entry_reraises`: handle 7 was never
registered in `envRecover`. -/
theorem c8_no_registry_entry_reraises_witness :
    action_wrapper 1 envRecover 7
      = (Except.error (Exc.stale "gone"), ⟨0, 0, 0, 1, 0⟩) :=
  c8_no_registry_entry_reraises envRecover 7 0 "gone" rfl rfl

/-! ### Claims about snapshot capture and the snapshot container -/

/-- An element whose `class` attribute read raises (e.g. the element
went stale mid-capture). -/
def elemClassCrash : Elem :=
  ⟨Except.ok "div",
   fun a => if a = "class" then Except.error (Exc.stale "stale read")
            else Except.ok (some "x"),
   Except.ok "t",
   Except.ok (some "/html/body/div[1]"),
   Except.ok []⟩

/-- An element whose xpath JavaScript raises. -/
def elemScriptCrash : Elem :=
  ⟨Except.ok "div",
   fun _ => Except.ok (some "x"),
   Except.ok "t",
   Except.error (Exc.other "js failed"),
   Except.ok []⟩

/-- An element with `class` and `id` set and every other attribute
absent (the driver returns null for them). -/
def elemNoHref : Elem :=
  ⟨Except.ok "div",
   fun a => if a = "class" then Except.ok (some "btn")
            else if a = "id" then Except.ok (some "x")
            else Except.ok none,
   Except.ok "hello",
   Except.ok (some "//div[1]"),
   Except.ok []⟩

/-- C5 (counterexample): capture is not total — `from_selenium_element`
has no per-attribute guard, so a raising `class` read fails the whole
capture instead of degrading to an empty field. -/
theorem c5_capture_not_total_counterexample :
    from_selenium_element elemClassCrash true none
      = Except.error (Exc.stale "stale read") := rfl

/-- C5 (amended): only the absolute-path computation is guarded: it
returns the empty string on any underlying error or null result and
never raises, while a failing individual attribute read propagates out
of `from_selenium_element` unchanged. -/
theorem c5_xpath_best_effort (el : Elem) (e err : Exc) :
    (el.xpathScript = Except.error e → get_absolute_xpath el = "")
    ∧ (el.xpathScript = Except.ok none → get_absolute_xpath el = "")
    ∧ (el.getAttribute "class" = Except.error err →
        from_selenium_element el true none = Except.error err) := by
  refine ⟨?_, ?_, ?_⟩
  · intro h
    simp [get_absolute_xpath, h]
  · intro h
    simp [get_absolute_xpath, h]
  · intro h
    simp [from_selenium_element, h, Bind.bind, Except.bind]

/-- Witness for `c5_xpath_best_effort` at the two crashing elements. -/
theorem c5_xpath_best_effort_witness :
    get_absolute_xpath elemScriptCrash = ""
    ∧ from_selenium_element elemClassCrash true none
        = Except.error (Exc.stale "stale read") :=
  ⟨(c5_xpath_best_effort elemScriptCrash (Exc.other "js failed")
      (Exc.other "js failed")).1 rfl,
   (c5_xpath_best_effort elemClassCrash (Exc.other "unused")
      (Exc.stale "stale read")).2.2 rfl⟩

/-- C6 (counterexample): a snapshot produced by capture can hold `None`:
for an element whose `href` attribute is absent the driver returns null
and `from_selenium_element` stores it as-is, so the resulting snapshot's
`href` field is `None`, not empty. -/
theorem c6_snapshot_field_none_counterexample :
    (from_selenium_element elemNoHref true none).toOption.map
        WebElementData.href = some none := rfl

/-- C6 (amended): every field left to its default in the constructor is
empty and not `None` (and `classes`/`attributes` are normalized through
`or []` / `or` the empty dict), but capture stores the driver's raw
attribute values, so an attribute the driver reports as null yields a
`None` field in the snapshot. -/
theorem c6_defaults_empty_capture_raw (el : Elem)
    (cl tg i tx : String) (sv nv vv : Option String)
    (ats : List (String × String))
    (hc : el.getAttribute "class" = Except.ok (some cl))
    (ht : el.tagName = Except.ok tg)
    (hid : el.getAttribute "id" = Except.ok (some i))
    (htx : el.text = Except.ok tx)
    (hh : el.getAttribute "href" = Except.ok none)
    (hs : el.getAttribute "src" = Except.ok sv)
    (hn : el.getAttribute "name" = Except.ok nv)
    (hv : el.getAttribute "value" = Except.ok vv)
    (hat : el.attrsScript = Except.ok ats) :
    (webElementDataDefault.tag = some ""
      ∧ webElementDataDefault.element_id = some ""
      ∧ webElementDataDefault.classes = []
      ∧ webElementDataDefault.text = some ""
      ∧ webElementDataDefault.href = some ""
      ∧ webElementDataDefault.src = some ""
      ∧ webElementDataDefault.name = some ""
      ∧ webElementDataDefault.value = some ""
      ∧ webElementDataDefault.xpath = some ""
      ∧ webElementDataDefault.attributes = [])
    ∧ ∃ d : WebElementData,
        from_selenium_element el true none = Except.ok d ∧ d.href = none := by
  refine ⟨⟨rfl, rfl, rfl, rfl, rfl, rfl, rfl, rfl, rfl, rfl⟩, ?_⟩
  refine ⟨setAttributes
    (initWebElementData (some tg) (some i) (some (pySplit (some cl)))
      (some tx) none sv nv vv (some (get_absolute_xpath el)) none) ats,
    ?_, rfl⟩
  simp [from_selenium_element, hc, ht, hid, htx, hh, hs, hn, hv, hat,
    Bind.bind, Except.bind, Pure.pure, Except.pure]

/-- Witness for `c6_defaults_empty_capture_raw` at `elemNoHref`. -/
theorem c6_defaults_empty_capture_raw_witness :
    ∃ d : WebElementData,
      from_selenium_element elemNoHref true none = Except.ok d
      ∧ d.href = none :=
  (c6_defaults_empty_capture_raw elemNoHref "btn" "div" "x" "hello"
    none none none [] rfl rfl rfl rfl rfl rfl rfl rfl rfl).2

/-! ### Claims about the signed serializer -/

/-- C9: given the pickle round-trip contract for the serialized object
and the digest producing `signature_size` bytes, `loads` inverts
`dumps`; and any byte string whose leading `signature_size` bytes differ
from the HMAC of the remaining payload is rejected with `SecurityError`
without deserializing. -/
theorem c9_roundtrip_and_tamper {α : Type} (sp : SecurePickle α) (obj : α)
    (hlen : (sp.digest sp.secret_key (sp.pickleDumps obj)).length
      = sp.signature_size)
    (hround : sp.pickleLoads (sp.pickleDumps obj) = Except.ok obj) :
    sp.loads (sp.dumps obj) = Except.ok obj
    ∧ ∀ data : List Nat,
        data.take sp.signature_size
          ≠ sp.digest sp.secret_key (data.drop sp.signature_size) →
        sp.loads data
          = Except.error (SPError.securityError "signature mismatch") := by
  constructor
  · have h1 : (sp.digest sp.secret_key (sp.pickleDumps obj)
        ++ sp.pickleDumps obj).take sp.signature_size
        = sp.digest sp.secret_key (sp.pickleDumps obj) := by
      rw [← hlen]
      exact List.take_left _ _
    have h2 : (sp.digest sp.secret_key (sp.pickleDumps obj)
        ++ sp.pickleDumps obj).drop sp.signature_size
        = sp.pickleDumps obj := by
      rw [← hlen]
      exact List.drop_left _ _
    simp [SecurePickle.loads, SecurePickle.dumps, h1, h2, hround]
  · intro data hne
    have hcond : ¬ (sp.digest sp.secret_key (data.drop sp.signature_size)
        = data.take sp.signature_size) := fun hc => hne hc.symm
    simp [SecurePickle.loads, hcond]

/-- A concrete instance for the witness: a toy (but shape-correct)
digest of one byte and a two-byte codec for naturals below 65536. -/
def spNat : SecurePickle Nat :=
  ⟨[7, 3],
   fun key msg => [(key.sum + msg.sum) % 256],
   1,
   fun n => [n % 256, n / 256],
   fun l => match l with
     | [a, b] => Except.ok (a + 256 * b)
     | _ => Except.error (SPError.pickleError "bad payload")⟩

/-- Witness for `c9_roundtrip_and_tamper`: round trip `300` and reject
a forged signature byte. -/
theorem c9_roundtrip_and_tamper_witness :
    spNat.loads (spNat.dumps 300) = Except.ok 300
    ∧ spNat.loads [9, 44, 1]
        = Except.error (SPError.securityError "signature mismatch") :=
  ⟨(c9_roundtrip_and_tamper spNat 300 rfl rfl).1,
   (c9_roundtrip_and_tamper spNat 300 rfl rfl).2 [9, 44, 1] (by decide)⟩

/-- C10: for every direct attribute whose stored value is the empty
string, `get_attribute` applies Python truthiness (`value or default`)
and returns the supplied default, making an empty direct attribute
indistinguishable from an absent one. -/
theorem c10_empty_direct_attribute_hidden (d : WebElementData)
    (dflt : Option String) :
    (d.element_id = some "" → d.get_attribute "id" dflt = dflt)
    ∧ (String.intercalate " " d.classes = "" →
        d.get_attribute "class" dflt = dflt)
    ∧ (d.href = some "" → d.get_attribute "href" dflt = dflt)
    ∧ (d.src = some "" → d.get_attribute "src" dflt = dflt)
    ∧ (d.name = some "" → d.get_attribute "name" dflt = dflt)
    ∧ (d.value = some "" → d.get_attribute "value" dflt = dflt)
    ∧ (d.text = some "" → d.get_attribute "text" dflt = dflt) := by
  refine ⟨?_, ?_, ?_, ?_, ?_, ?_, ?_⟩ <;> intro h <;>
    simp [WebElementData.get_attribute, pyOrStr, h]

/-- Witness for `c10_empty_direct_attribute_hidden` on the default
snapshot, whose `href` is the empty string. -/
theorem c10_empty_direct_attribute_hidden_witness :
    webElementDataDefault.get_attribute "href" (some "fallback")
      = some "fallback" :=
  (c10_empty_direct_attribute_hidden webElementDataDefault
    (some "fallback")).2.2.1 rfl

end Healing
